import Mathlib

/-!
Verification of the DamageScan chat application (Cloudflare Worker backend
`src/index.ts` + `src/types.ts`, and the browser frontend script) against its
natural-language specification.

The TypeScript source is shallowly embedded: pure functions become Lean
functions, JS numbers that carry relevance scores become rationals (ℚ),
JS strings become Lean `String`s, fallible external calls (the AutoRAG
search and the LLM) become explicit outcome values / oracles, and the
client's retry bookkeeping becomes explicit state records.  JS string
primitives used by the source (`trim`, `startsWith`, `substring`, `join`,
substring containment, the `||` falsy-default idiom) are modelled by
small character-list helpers below so every definition evaluates inside
the kernel.
-/

namespace DamageScan

/-- JS `a || b` on strings: `""` is the only falsy string. -/
def jsOr (a b : String) : String := if a = "" then b else a

/-- Whitespace test used by the JS `trim` model (space, tab, CR, LF). -/
def isWS (c : Char) : Bool := c == ' ' || c == '\t' || c == '\n' || c == '\r'

/-- Model of JS `String.prototype.trim`. -/
def jsTrim (s : String) : String :=
  String.mk (((s.data.dropWhile isWS).reverse.dropWhile isWS).reverse)

/-- Model of JS `String.prototype.startsWith`. -/
def strStartsWith (s pat : String) : Bool := pat.data.isPrefixOf s.data

/-- Model of JS `s.substring(0, n)`. -/
def strTake (s : String) (n : Nat) : String := String.mk (s.data.take n)

def strContainsAux : List Char → List Char → Bool
  | [], pat => pat.isEmpty
  | c :: t, pat => pat.isPrefixOf (c :: t) || strContainsAux t pat

/-- Model of JS `String.prototype.includes` (substring containment). -/
def strContains (s pat : String) : Bool := strContainsAux s.data pat.data

/-- Model of JS `Array.prototype.join(sep)`. -/
def joinSep (sep : String) : List String → String
  | [] => ""
  | [x] => x
  | x :: y :: rest => x ++ sep ++ joinSep sep (y :: rest)

/-- Split a character list at a separator character (used to count the
lines of the fixed instruction block). -/
def splitCharList (c : Char) (l : List Char) : List (List Char) :=
  l.foldr
    (fun ch acc =>
      if ch = c then [] :: acc
      else
        match acc with
        | [] => [[ch]]
        | h :: t => (ch :: h) :: t)
    [[]]

/-- Lines of a string (split at the newline character). -/
def strLines (s : String) : List String := (splitCharList '\n' s.data).map String.mk

/-- Model of JS `Number.prototype.toFixed(k)` on a rational: round
`|q| * 10^k` to the nearest integer (ties up) and print with `k` digits
after the decimal point. -/
def toFixedQ (k : Nat) (q : ℚ) : String :=
  let scale : ℤ := (10 : ℤ) ^ k
  let n : ℤ := round (|q| * (scale : ℚ))
  let whole := n / scale
  let frac := (n % scale).toNat
  let fracStr := toString frac
  let pad := String.mk (List.replicate (k - fracStr.length) '0')
  (if q < 0 ∧ n ≠ 0 then "-" else "") ++ toString whole ++
    (if k = 0 then "" else "." ++ pad ++ fracStr)

/-! ## Data model (`src/types.ts`) -/

/-- `ChatMessage` from `types.ts` (the role union is a string at runtime). -/
structure ChatMessage where
  role : String
  content : String
deriving DecidableEq, Repr

/-- One entry of a `SearchResult.content` array.  `isSearchResult` only
requires `type` and `text` to be strings; only entries with
`type = "text"` contribute text. -/
structure ContentItem where
  type : String
  text : String
deriving DecidableEq, Repr

/-- A search result document that passes the `isSearchResult` shape guard
(string `file_id`, string `filename`, numeric `score`, `content` array of
string-typed items).  Fields the code never reads (`attributes`,
`chunk_id`, ...) are omitted. -/
structure ValidDoc where
  file_id : String
  filename : String
  score : ℚ
  content : List ContentItem
deriving DecidableEq, Repr

/-- A raw element of the search response's `data` array: `none` models a
value that fails the `isSearchResult` guard, `some v` a shape-valid
document. -/
abbrev RawDoc := Option ValidDoc

/-- One element of `RAGContext.sources`. -/
structure SourceEntry where
  filename : String
  score : ℚ
  relevantText : String
deriving DecidableEq, Repr

/-- `RAGContext` from `types.ts`. -/
structure RAGContext where
  contextText : String
  documentCount : Nat
  averageScore : ℚ
  sources : List SourceEntry
  hasContext : Bool
deriving DecidableEq, Repr

/-! ## Retrieval step (`src/index.ts`, `buildRAGContext` /
`createEmptyRAGContext` / `searchAutoRAG`) -/

/-- `createEmptyRAGContext` (index.ts lines 339-347). -/
def createEmptyRAGContext : RAGContext :=
  { contextText := ""
    documentCount := 0
    averageScore := 0
    sources := []
    hasContext := false }

/-- Text extraction inside `buildRAGContext`:
`doc.content.filter(c => c.type === "text").map(c => c.text).join('\n').trim()`. -/
def extractText (d : ValidDoc) : String :=
  jsTrim (joinSep "\n" ((d.content.filter (fun c => c.type == "text")).map (fun c => c.text)))

/-- The context block pushed for a valid document with non-empty text:
`"[Document {index+1}: {filename} (Relevance: {score.toFixed(2)})]\n{text}"`. -/
def contextEntry (i : Nat) (v : ValidDoc) (t : String) : String :=
  "[Document " ++ toString (i + 1) ++ ": " ++ v.filename ++ " (Relevance: " ++
    toFixedQ 2 v.score ++ ")]\n" ++ t

/-- The `sources` entry pushed for a valid document with non-empty text:
`relevantText` is `text.substring(0, 200)` plus `"..."` when longer. -/
def sourceEntry (v : ValidDoc) (t : String) : SourceEntry :=
  { filename := v.filename
    score := v.score
    relevantText := strTake t 200 ++ (if 200 < t.length then "..." else "") }

/-- Accumulators of the `documents.forEach` loop in `buildRAGContext`:
`contextParts`, `sources`, `totalScore`. -/
structure FoldAcc where
  parts : List String
  sources : List SourceEntry
  total : ℚ
deriving DecidableEq, Repr

/-- The `documents.forEach((doc, index) => ...)` loop of `buildRAGContext`:
shape-invalid documents are skipped, valid documents with empty extracted
text are skipped, valid documents with non-empty text contribute a context
block, a source entry and their score.  The array index advances on every
element. -/
def ragFold : List RawDoc → Nat → FoldAcc
  | [], _ => ⟨[], [], 0⟩
  | d :: rest, i =>
    let acc := ragFold rest (i + 1)
    match d with
    | none => acc
    | some v =>
      let t := extractText v
      if t = "" then acc
      else ⟨contextEntry i v t :: acc.parts, sourceEntry v t :: acc.sources, v.score + acc.total⟩

/-- `buildRAGContext` (index.ts lines 285-334) applied to the response's
`data` array. -/
def buildRAGContext (data : List RawDoc) : RAGContext :=
  if data.length = 0 then createEmptyRAGContext
  else
    let acc := ragFold data 0
    let contextText := joinSep "\n\n" acc.parts
    { contextText := contextText
      documentCount := data.length
      averageScore := if 0 < data.length then acc.total / (data.length : ℚ) else 0
      sources := acc.sources
      hasContext := contextText.length != 0 }

/-- Outcome of the external `env.AI.autorag(index).search(...)` call as
observed by `searchAutoRAG`: the call may throw, return a value whose
shape fails the `!searchResult || !searchResult.data || !Array.isArray`
check, or return a value with a `data` array. -/
inductive SearchOutcome where
  | throws (msg : String)
  | invalidShape
  | ok (data : List RawDoc)
deriving DecidableEq, Repr

/-- `searchAutoRAG` (index.ts lines 242-280) as a function of the external
call's outcome.  Totality of this Lean function is the embedding of the
"never raises" contract: every branch, including the catch-all, produces
a `RAGContext`. -/
def searchAutoRAG : SearchOutcome → RAGContext
  | .throws _ => createEmptyRAGContext
  | .invalidShape => createEmptyRAGContext
  | .ok data => buildRAGContext data

/-- The failure cases of the external search: a thrown error or an invalid
response structure. -/
def searchFailed : SearchOutcome → Bool
  | .throws _ => true
  | .invalidShape => true
  | .ok _ => false

/-- Whether a raw document contributes to `sources` / `contextText`:
shape-valid with non-empty extracted text. -/
def eligible : RawDoc → Bool
  | none => false
  | some v => !(extractText v == "")

/-- Sum of the scores of the contributing documents (shape-valid, non-empty
extracted text). -/
def eligScoreSum (data : List RawDoc) : ℚ :=
  (data.map (fun d =>
    match d with
    | none => 0
    | some v => if extractText v = "" then 0 else v.score)).sum

/-- The average-score formula asserted by claim C1: sum of the scores of
ALL shape-valid documents (including empty-text ones) divided by the raw
length of the `data` array, `0` when that array is empty.  This definition
follows the claim's words, for comparison with `buildRAGContext`. -/
def claimAvgC1 (data : List RawDoc) : ℚ :=
  if data.length = 0 then 0
  else (data.map (fun d => match d with | none => 0 | some v => v.score)).sum / (data.length : ℚ)

/-! ## Configuration (`types.ts` `DEFAULT_CONFIG`; `index.ts` merges it
into `CONFIG` unchanged) -/

/-- `DEFAULT_CONFIG.defaultSystemPrompt`. -/
def defaultSystemPrompt : String :=
  "You are a helpful, friendly assistant. Use the provided context from the knowledge base to enhance your responses when relevant, but you can also draw from your general knowledge. If context is provided, prioritize it but explain clearly when you\x27re using external knowledge vs. the knowledge base. Provide concise and accurate responses."

/-- `DEFAULT_CONFIG.autoragIndex`. -/
def autoragIndex : String := "damagescan-rag-1"

/-- The server-side `RAGConfig` produced for `RequestContext.ragSettings`. -/
structure RAGConfig where
  index : String
  maxResults : Nat
  scoreThreshold : ℚ
  rewriteQuery : Bool
deriving DecidableEq, Repr

/-- `DEFAULT_CONFIG.ragSettings` together with `autoragIndex`. -/
def configRagSettings : RAGConfig :=
  { index := autoragIndex
    maxResults := 5
    scoreThreshold := 1/10
    rewriteQuery := true }

/-- A client-supplied `ragSettings` object.  Each field is `some` exactly
when the JSON object carries that property; the frontend also sends an
`index` property, which the TS interface does not declare but the spread
in `handleChatRequest` would copy. -/
structure ClientRagSettings where
  maxResults : Option Nat
  scoreThreshold : Option ℚ
  rewriteQuery : Option Bool
  index : Option String
deriving DecidableEq, Repr

/-- The `ragSettings` merge in `handleChatRequest` (index.ts lines 98-102):
`{...CONFIG.ragSettings, ...chatRequest.ragSettings, index: CONFIG.autoragIndex}`.
Client properties override the defaults, and the explicit `index:` entry,
written last, overrides any client-supplied index. -/
def buildRagSettings (client : Option ClientRagSettings) : RAGConfig :=
  match client with
  | none => configRagSettings
  | some c =>
    { index := autoragIndex
      maxResults := c.maxResults.getD configRagSettings.maxResults
      scoreThreshold := c.scoreThreshold.getD configRagSettings.scoreThreshold
      rewriteQuery := c.rewriteQuery.getD configRagSettings.rewriteQuery }

/-! ## Prompt augmenter (`index.ts`, `buildEnhancedSystemPrompt` /
`estimateTokens`) -/

/-- `EnhancedSystemPrompt` from `types.ts`. -/
structure EnhancedSystemPrompt where
  prompt : String
  hasRAGContext : Bool
  contextSummary : String
  tokenEstimate : Nat
deriving DecidableEq, Repr

/-- `estimateTokens` (index.ts lines 555-558): `Math.ceil(text.length / 4)`. -/
def estimateTokens (text : String) : Nat := (text.length + 3) / 4

/-- The five instruction bullet points of the augmented prompt's
`INSTRUCTIONS:` block, in source order. -/
def instructionBullets : List String :=
  [ "When the knowledge base context is relevant to the user\x27s question, prioritize this information"
  , "Reference specific documents when using knowledge base information (e.g., \"according to [Document 1: filename]\")"
  , "If the knowledge base doesn\x27t contain relevant information for the question, rely on your general knowledge"
  , "Be clear about when you\x27re using knowledge base information vs. general knowledge"
  , "Provide accurate and helpful responses based on the best available information" ]

/-- The literal `INSTRUCTIONS` body of the template: each bullet on its
own line prefixed with `"- "`. -/
def instructionsBlock : String :=
  joinSep "\n" (instructionBullets.map (fun b => "- " ++ b))

/-- The summary line of the augmented prompt:
`"Found {documentCount} relevant documents (avg. relevance: {averageScore.toFixed(2)})"`. -/
def contextSummaryOf (rc : RAGContext) : String :=
  "Found " ++ toString rc.documentCount ++ " relevant documents (avg. relevance: " ++
    toFixedQ 2 rc.averageScore ++ ")"

/-- `buildEnhancedSystemPrompt` (index.ts lines 352-390).  The source
destructures an `includeInstructions` flag but never reads it; it is kept
as an argument for fidelity. -/
def buildEnhancedSystemPrompt (basePrompt : String) (ragContext : RAGContext)
    (_includeInstructions : Bool) : EnhancedSystemPrompt :=
  if !ragContext.hasContext then
    { prompt := basePrompt
      hasRAGContext := false
      contextSummary := "No relevant documents found in knowledge base"
      tokenEstimate := estimateTokens basePrompt }
  else
    let contextSummary := contextSummaryOf ragContext
    let enhancedPrompt :=
      basePrompt ++
        "\n\nKNOWLEDGE BASE CONTEXT:\nYou have access to relevant information from the knowledge base. " ++
        contextSummary ++ ":\n\n" ++ ragContext.contextText ++
        "\n\nINSTRUCTIONS:\n" ++ instructionsBlock
    { prompt := enhancedPrompt
      hasRAGContext := true
      contextSummary := contextSummary
      tokenEstimate := estimateTokens enhancedPrompt }

/-! ## Request validator (`index.ts`, `validateChatRequest` /
`getUserMessage`; `types.ts`, `isChatRequest`) -/

/-- A raw element of a decoded `messages` array: `none` models a value
that is not a `{role: string-in-union, content: string}` object, `some m`
a message-shaped object (whose `role` may still be outside the union —
`isChatRequest` checks that). -/
abbrev RawMsg := Option ChatMessage

/-- A decoded JSON request body: either not an object with a `messages`
array at all, or an object carrying a `messages` array and an optional
string `systemPrompt`.  (Client `ragSettings` never affect validation.) -/
inductive RawBody where
  | notChatShape
  | mk (messages : List RawMsg) (systemPrompt : Option String)
deriving DecidableEq, Repr

/-- The per-message part of the `isChatRequest` guard. -/
def msgShapeOk : RawMsg → Bool
  | none => false
  | some m => m.role == "system" || m.role == "user" || m.role == "assistant"

/-- `isChatRequest` (types.ts lines 408-420). -/
def isChatRequest : RawBody → Bool
  | .notChatShape => false
  | .mk msgs _ => msgs.all msgShapeOk

/-- `body.messages.some(msg => msg.role === "user")`. -/
def rawHasUser (msgs : List RawMsg) : Bool :=
  msgs.any fun m => match m with | some msg => msg.role == "user" | none => false

/-- `msg.content` as read by the length check (every message is
shape-valid at that point, so the `none` default is unreachable there). -/
def rawContent : RawMsg → String
  | some m => m.content
  | none => ""

def errStructureMsg : String := "Invalid request structure"

def errNoMessages : String := "At least one message is required"

def errNoUser : String := "At least one user message is required"

def errSysLong : String := "System prompt too long (max 10000 characters)"

def errContentLong : String := "Message content too long (max 50000 characters)"

/-- `body.systemPrompt && body.systemPrompt.length > 10000` (the first
conjunct is JS truthiness on the optional string). -/
def sysTooLong : Option String → Bool
  | some s => (s != "") && decide (10000 < s.length)
  | none => false

/-- The `for (const msg of body.messages)` loop collecting one
"content too long" error per offending message. -/
def contentErrs : List RawMsg → List String
  | [] => []
  | m :: rest =>
    (if 50000 < (rawContent m).length then [errContentLong] else []) ++ contentErrs rest

/-- `ValidationResult` from `types.ts` (`sanitizedInput` is the body
itself when no error was collected). -/
structure ValidationResult where
  valid : Bool
  errors : List String
  warnings : List String
  sanitizedInput : Option RawBody
deriving DecidableEq, Repr

/-- `validateChatRequest` (index.ts lines 503-541): early return with the
single structure error when the `isChatRequest` guard fails, otherwise
collect the four rule violations in source order. -/
def validateChatRequest (b : RawBody) : ValidationResult :=
  if isChatRequest b then
    match b with
    | .notChatShape =>
      { valid := false, errors := [errStructureMsg], warnings := [], sanitizedInput := none }
    | .mk msgs sp =>
      let e1 := if msgs.length = 0 then [errNoMessages] else []
      let e2 := if rawHasUser msgs then [] else [errNoUser]
      let e3 := if sysTooLong sp then [errSysLong] else []
      let e4 := contentErrs msgs
      let errors := e1 ++ e2 ++ e3 ++ e4
      { valid := errors.length == 0
        errors := errors
        warnings := []
        sanitizedInput := if errors.length == 0 then some (.mk msgs sp) else none }
  else
    { valid := false, errors := [errStructureMsg], warnings := [], sanitizedInput := none }

/-- `getUserMessage` (index.ts lines 546-549):
`messages.filter(m => m.role === "user")[last]?.content || ""`. -/
def getUserMessage (messages : List ChatMessage) : String :=
  let userMessages := messages.filter fun m => m.role == "user"
  jsOr (match userMessages.getLast? with
        | some m => m.content
        | none => "") ""

/-! ## Generation step and fallback (`index.ts`,
`processAutoRAGPipeline` / `generateLLMResponse` / `handlePipelineFailure`) -/

/-- A validated chat request as used by the pipeline. -/
structure ChatRequestM where
  messages : List ChatMessage
  systemPrompt : Option String
deriving DecidableEq, Repr

/-- Outcome of one `env.AI.run(..., {returnRawResponse: true})` call:
either a raw HTTP response (any status) or a thrown error. -/
inductive LLMResult where
  | raw (status : Nat) (statusText : String) (body : String)
  | throws (msg : String)
deriving DecidableEq, Repr

/-- An HTTP response as assembled by the Worker (status, headers in
insertion order, body stream). -/
structure ResponseM where
  status : Nat
  headers : List (String × String)
  body : String
deriving DecidableEq, Repr

/-- Headers set by `addCORSHeaders` / the CORS constants. -/
def corsHeaders : List (String × String) :=
  [ ("Access-Control-Allow-Origin", "*")
  , ("Access-Control-Allow-Methods", "GET, POST, OPTIONS")
  , ("Access-Control-Allow-Headers", "Content-Type") ]

/-- Headers `generateLLMResponse` attaches to a successful stream. -/
def sseHeaders : List (String × String) :=
  [ ("Content-Type", "text/event-stream")
  , ("Cache-Control", "no-cache")
  , ("Connection", "keep-alive") ] ++ corsHeaders

/-- `ERROR_MESSAGES.LLM_FAILURE`. -/
def llmFailureMsg : String := "AI model temporarily unavailable. Please try again."

/-- `createErrorResponse` (index.ts lines 577-597), with the JSON payload
abstracted to its `error` field. -/
def createErrorResponseM (msg : String) (status : Nat) : ResponseM :=
  { status := status
    headers := ("Content-Type", "application/json") :: corsHeaders
    body := msg }

/-- The message list for the primary LLM call (index.ts lines 191-194):
one synthesized system message holding the augmented prompt, followed by
the request's messages with client-supplied system messages removed. -/
def primaryMessages (req : ChatRequestM) (rag : RAGContext) : List ChatMessage :=
  ⟨"system", (buildEnhancedSystemPrompt (jsOr (req.systemPrompt.getD "") defaultSystemPrompt) rag true).prompt⟩ ::
    req.messages.filter fun m => m.role != "system"

/-- The message list for the fallback call (index.ts lines 449-455): the
original base system prompt (no RAG augmentation), client system messages
removed. -/
def fallbackMessages (req : ChatRequestM) : List ChatMessage :=
  ⟨"system", jsOr (req.systemPrompt.getD "") defaultSystemPrompt⟩ ::
    req.messages.filter fun m => m.role != "system"

/-- `generateLLMResponse` (index.ts lines 395-435): rethrows the
provider's thrown error; throws `"LLM API error: {status} {statusText}"`
on a non-2xx status; otherwise wraps the stream with SSE/CORS headers. -/
def generateLLMResponse (msgs : List ChatMessage) (llm : List ChatMessage → LLMResult) :
    Except String ResponseM :=
  match llm msgs with
  | .throws m => .error m
  | .raw st stx b =>
    if 200 ≤ st ∧ st ≤ 299 then
      .ok { status := st, headers := sseHeaders, body := b }
    else
      .error ("LLM API error: " ++ toString st ++ " " ++ stx)

/-- `handlePipelineFailure` (index.ts lines 440-498): reissue the call
once with the fallback messages; on success mark the response with
`X-Fallback-Used` and `X-Original-Error`; if the fallback also fails,
answer 503 with `ERROR_MESSAGES.LLM_FAILURE`.  The second component
records the message list sent upstream. -/
def handlePipelineFailure (req : ChatRequestM) (errMsg : String)
    (llm : List ChatMessage → LLMResult) (rid : String) :
    ResponseM × List (List ChatMessage) :=
  match llm (fallbackMessages req) with
  | .raw st stx b =>
    if 200 ≤ st ∧ st ≤ 299 then
      ({ status := st
         headers := [("X-Fallback-Used", "true"), ("X-Original-Error", errMsg),
                     ("X-Request-ID", rid)] ++ corsHeaders
         body := b }, [fallbackMessages req])
    else
      let _ := stx
      (createErrorResponseM llmFailureMsg 503, [fallbackMessages req])
  | .throws _ => (createErrorResponseM llmFailureMsg 503, [fallbackMessages req])

/-- Steps 3-4 of `processAutoRAGPipeline` (index.ts lines 190-236) given
the already-built `RAGContext`: call the LLM on the enhanced messages; on
success relay the stream and attach the diagnostic headers; on any
failure run `handlePipelineFailure`.  The second component records every
message list sent upstream, in call order. -/
def processPipeline (req : ChatRequestM) (rag : RAGContext)
    (llm : List ChatMessage → LLMResult) (rid procTime : String) :
    ResponseM × List (List ChatMessage) :=
  match generateLLMResponse (primaryMessages req rag) llm with
  | .ok r =>
    ({ status := r.status
       headers := r.headers ++
         [ ("X-Processing-Time", procTime)
         , ("X-RAG-Documents", toString rag.documentCount)
         , ("X-RAG-Average-Score", toFixedQ 3 rag.averageScore)
         , ("X-Request-ID", rid) ]
       body := r.body }, [primaryMessages req rag])
  | .error m =>
    let fb := handlePipelineFailure req m llm rid
    (fb.1, primaryMessages req rag :: fb.2)

/-! ## Client stream consumer and retry controller (frontend script,
`processStreamingResponse` / `handleChatError` / `sendMessage`) -/

/-- One decoded line of the streamed body, as seen by the line loop of
`processStreamingResponse`.  `text` is the raw line; `parsed` models the
`JSON.parse` attempt on the effective payload (the part after `"data: "`
for SSE lines, the whole line otherwise): `none` when the parse throws,
`some r` when it succeeds with `r` the optional string `response` field
of the parsed object. -/
structure Line where
  text : String
  parsed : Option (Option String)
deriving DecidableEq, Repr

/-- The body of the `for (const line of lines)` loop: the accumulator is
`(responseText, hasContent)`.  Blank and comment lines are skipped; a
parsed object contributes its truthy `response` field; a line whose parse
throws is appended verbatim when it is non-blank and not an event-stream
control line. -/
def processLine (acc : String × Bool) (l : Line) : String × Bool :=
  if jsTrim l.text = "" ∨ strStartsWith l.text ":" then acc
  else
    match l.parsed with
    | some r =>
      match r with
      | some s => if s = "" then acc else (acc.1 ++ s, true)
      | none => acc
    | none =>
      if jsTrim l.text ≠ "" ∧ ¬ strStartsWith l.text "data:" ∧ ¬ strStartsWith l.text ":" then
        (acc.1 ++ l.text, true)
      else acc

/-- `processStreamingResponse` reduced to its accumulation and final
check (frontend script lines 417-508): after the stream ends, if no text
fragment was ever accumulated the function throws
`"No response content received"`; otherwise it returns the accumulated
text. -/
def runConsumer (lines : List Line) : Except String String :=
  let acc := lines.foldl processLine ("", false)
  if acc.2 = false then Except.error "No response content received"
  else Except.ok acc.1

def unknownErrorMsg : String := "An unexpected error occurred. Please try again."

def networkErrorMsg : String := "Network error occurred. Please check your connection."

def rateLimitedMsg : String := "Too many requests. Please wait a moment before trying again."

def timeoutMsg : String := "Request timed out. Please try again with a shorter message."

/-- The substring classification at the top of `handleChatError`
(frontend script lines 651-664): user-visible message and retryability. -/
def classifyError (msg : String) : String × Bool :=
  if strContains msg "HTTP 503" || strContains msg "HTTP 502" then (llmFailureMsg, true)
  else if strContains msg "HTTP 429" then (rateLimitedMsg, true)
  else if strContains msg "NetworkError" || strContains msg "Failed to fetch" then
    (networkErrorMsg, true)
  else if strContains msg "timeout" then (timeoutMsg, false)
  else (unknownErrorMsg, false)

/-- What `handleChatError` decides: the conversational error message it
renders, whether the error was retryable, the new `retryAttempts`
counter, and the delay of the `setTimeout(sendMessage, ...)` timer when
one is scheduled (`none` = no retry scheduled). -/
structure RetryDecision where
  errorMessage : String
  shouldRetry : Bool
  newRetryAttempts : Nat
  scheduledDelayMs : Option Nat
deriving DecidableEq, Repr

/-- `handleChatError` (frontend script lines 645-692) with
`maxRetryAttempts = 3`: if retryable and the attempt count is below the
bound, increment it and schedule `sendMessage` after
`2000 * retryAttempts` ms; otherwise reset the count to 0 and schedule
nothing. -/
def handleChatError (errMsg : String) (retryAttempts : Nat) : RetryDecision :=
  let c := classifyError errMsg
  if c.2 ∧ retryAttempts < 3 then
    { errorMessage := c.1
      shouldRetry := c.2
      newRetryAttempts := retryAttempts + 1
      scheduledDelayMs := some (2000 * (retryAttempts + 1)) }
  else
    { errorMessage := c.1
      shouldRetry := c.2
      newRetryAttempts := 0
      scheduledDelayMs := none }

/-- The client state read by `sendMessage`'s entry guard. -/
structure ClientState where
  inputValue : String
  isProcessing : Bool
  retryAttempts : Nat
deriving DecidableEq, Repr

/-- The front of `sendMessage` (frontend script lines 325-353): it reads
`userInput.value.trim()` and returns without doing anything when that is
empty or a request is already in flight; otherwise the outbound exchange
carries the chat history extended with the new user message.  (`sendMessage`
clears `userInput.value` right after reading it, so a later re-invocation
sees an empty input box.) -/
def sendMessageAttempt (s : ClientState) (chatHistory : List ChatMessage) :
    Option (List ChatMessage) :=
  let message := jsTrim s.inputValue
  if message = "" ∨ s.isProcessing then none
  else some (chatHistory ++ [⟨"user", message⟩])

/-! ## Characterization of the `buildRAGContext` fold -/

/-- The running `totalScore` of the `forEach` loop sums exactly the scores
of the contributing documents, independently of the array index. -/
theorem ragFold_total (data : List RawDoc) : ∀ i : Nat, (ragFold data i).total = eligScoreSum data := by
  induction data with
  | nil => intro i; simp [ragFold, eligScoreSum]
  | cons d rest ih =>
    intro i
    cases d with
    | none => simp [ragFold, eligScoreSum, List.map_cons, List.sum_cons] at ih ⊢; exact ih (i + 1)
    | some v =>
      by_cases h : extractText v = ""
      · simp [ragFold, h, eligScoreSum, List.map_cons, List.sum_cons] at ih ⊢; exact ih (i + 1)
      · simp [ragFold, h, eligScoreSum, List.map_cons, List.sum_cons] at ih ⊢
        rw [ih (i + 1)]

/-- The `sources` array collects one entry per contributing document,
independently of the array index. -/
theorem ragFold_sources_length (data : List RawDoc) :
    ∀ i : Nat, (ragFold data i).sources.length = data.countP eligible := by
  induction data with
  | nil => intro i; simp [ragFold]
  | cons d rest ih =>
    intro i
    cases d with
    | none => simp [ragFold, List.countP_cons, eligible]; exact ih (i + 1)
    | some v =>
      by_cases h : extractText v = ""
      · simp [ragFold, h, List.countP_cons, eligible]; exact ih (i + 1)
      · simp [ragFold, h, List.countP_cons, eligible]
        rw [ih (i + 1)]

/-! ## Claim C1 -/

/-- Claim C1 fails on the code: for a shape-valid document with score 4/5
whose `content` array is empty, `buildRAGContext` reports `averageScore = 0`
(the score of an empty-text document is never added to the total), while
the claim's formula — which includes empty-text shape-valid documents in
the sum — yields 4/5. -/
theorem C1_cex :
    (buildRAGContext [some ⟨"f1", "a.txt", 4/5, []⟩]).averageScore = 0 ∧
    claimAvgC1 [some ⟨"f1", "a.txt", 4/5, []⟩] = 4/5 ∧
    (buildRAGContext [some ⟨"f1", "a.txt", 4/5, []⟩]).averageScore ≠
      claimAvgC1 [some ⟨"f1", "a.txt", 4/5, []⟩] := by
  have he : extractText ⟨"f1", "a.txt", 4/5, []⟩ = "" := rfl
  have h1 : (buildRAGContext [some ⟨"f1", "a.txt", 4/5, []⟩]).averageScore = 0 := by
    simp [buildRAGContext, ragFold, he]
  have h2 : claimAvgC1 [some ⟨"f1", "a.txt", 4/5, []⟩] = 4/5 := by
    norm_num [claimAvgC1]
  exact ⟨h1, h2, by rw [h1, h2]; norm_num⟩

/-- Claim C1 (amended): `averageScore` equals the sum of the scores of the
shape-valid documents whose extracted text is non-empty, divided by the
raw length of the response's `data` array, and `0` when that array is
empty. -/
theorem C1_avg (data : List RawDoc) :
    (buildRAGContext data).averageScore =
      if data.length = 0 then 0 else eligScoreSum data / (data.length : ℚ) := by
  by_cases h : data.length = 0
  · simp [buildRAGContext, h, createEmptyRAGContext]
  · have hpos : 0 < data.length := Nat.pos_of_ne_zero h
    simp [buildRAGContext, h, hpos, ragFold_total]

/-! ## Claim C2 -/

/-- Claim C2 fails on the code: a response whose `data` array holds one
shape-invalid document yields `documentCount = 1` but an empty `sources`
sequence. -/
theorem C2_cex :
    (buildRAGContext [(none : RawDoc)]).documentCount = 1 ∧
    (buildRAGContext [(none : RawDoc)]).sources.length = 0 ∧
    (buildRAGContext [(none : RawDoc)]).documentCount ≠
      (buildRAGContext [(none : RawDoc)]).sources.length := by
  refine ⟨by decide, by decide, by decide⟩

/-- Claim C2 (amended): `documentCount` equals the raw length of the
`data` array while `sources.length` counts only the shape-valid documents
with non-empty extracted text, so `sources.length ≤ documentCount` (with
equality in the empty fallback context, whose two sides are both 0). -/
theorem C2_counts (data : List RawDoc) :
    (buildRAGContext data).documentCount = data.length ∧
    (buildRAGContext data).sources.length = data.countP eligible ∧
    (buildRAGContext data).sources.length ≤ (buildRAGContext data).documentCount ∧
    createEmptyRAGContext.documentCount = createEmptyRAGContext.sources.length := by
  by_cases h : data.length = 0
  · have hd : data = [] := List.length_eq_zero.mp h
    subst hd
    simp [buildRAGContext, createEmptyRAGContext]
  · refine ⟨by simp [buildRAGContext, h], ?_, ?_, rfl⟩
    · simp [buildRAGContext, h, ragFold_sources_length]
    · simp only [buildRAGContext, h, if_neg, ite_false]
      simpa [ragFold_sources_length] using List.countP_le_length (p := eligible) (l := data)

/-! ## Claim C5 -/

/-- Claim C5: `searchAutoRAG` is a total function of the external call's
outcome (the embedding of "never raises"), and on a thrown transport
error or an invalid response structure it returns the empty `RAGContext`
with `documentCount = 0` and `hasContext = false`. -/
theorem C5_degrades (o : SearchOutcome) (h : searchFailed o = true) :
    searchAutoRAG o = createEmptyRAGContext ∧
    (searchAutoRAG o).documentCount = 0 ∧
    (searchAutoRAG o).hasContext = false := by
  cases o with
  | throws m => exact ⟨rfl, rfl, rfl⟩
  | invalidShape => exact ⟨rfl, rfl, rfl⟩
  | ok data => simp [searchFailed] at h

/-- Witness for C5 at the invalid-shape outcome. -/
theorem C5_wit :
    searchFailed SearchOutcome.invalidShape = true ∧
    searchAutoRAG SearchOutcome.invalidShape = createEmptyRAGContext :=
  ⟨rfl, (C5_degrades SearchOutcome.invalidShape rfl).1⟩

/-! ## Claim C6 -/

/-- Every message of `msgs` with over-long content contributes the
"content too long" error to the collected list. -/
theorem mem_contentErrs {msgs : List RawMsg} {m : RawMsg} (hm : m ∈ msgs)
    (hl : 50000 < (rawContent m).length) : errContentLong ∈ contentErrs msgs := by
  induction msgs with
  | nil => cases hm
  | cons a t ih =>
    rcases List.mem_cons.mp hm with h | h
    · subst h
      simp [contentErrs, hl]
    · exact List.mem_append_right _ (ih h)

/-- Claim C6 fails on the code: a body whose single message fails the
shape guard (so no user-role message is present) is rejected, but the
error list is the lone "Invalid request structure" entry — it does not
contain "At least one user message is required" even though that rule is
also violated. -/
theorem C6_cex :
    rawHasUser [(none : RawMsg)] = false ∧
    (validateChatRequest (RawBody.mk [none] none)).valid = false ∧
    errNoUser ∉ (validateChatRequest (RawBody.mk [none] none)).errors := by
  refine ⟨by decide, by decide, by decide⟩

/-- Claim C6 (amended): for every body that passes the `isChatRequest`
structural guard, the validator collects an entry for every violated
rule — in particular every such body lacking a user-role message gets
"At least one user message is required", regardless of which other
errors are present — and it accepts exactly when the error list is
empty.  (Structurally invalid bodies are instead rejected early with the
single "Invalid request structure" error, per `C6_cex`.) -/
theorem C6_allRules (msgs : List RawMsg) (sp : Option String)
    (h : isChatRequest (RawBody.mk msgs sp) = true) :
    (msgs.length = 0 → errNoMessages ∈ (validateChatRequest (RawBody.mk msgs sp)).errors) ∧
    (rawHasUser msgs = false → errNoUser ∈ (validateChatRequest (RawBody.mk msgs sp)).errors) ∧
    (sysTooLong sp = true → errSysLong ∈ (validateChatRequest (RawBody.mk msgs sp)).errors) ∧
    (∀ m ∈ msgs, 50000 < (rawContent m).length →
      errContentLong ∈ (validateChatRequest (RawBody.mk msgs sp)).errors) ∧
    ((validateChatRequest (RawBody.mk msgs sp)).valid = true ↔
      (validateChatRequest (RawBody.mk msgs sp)).errors = []) := by
  refine ⟨?_, ?_, ?_, ?_, ?_⟩
  · intro h0
    simp [validateChatRequest, h, h0]
  · intro h0
    simp [validateChatRequest, h, h0]
  · intro h0
    simp [validateChatRequest, h, h0]
  · intro m hm hl
    simp only [validateChatRequest, h, if_true]
    exact List.mem_append_right _ (mem_contentErrs hm hl)
  · simp [validateChatRequest, h, List.length_eq_zero]

/-- Witness for C6 (amended) at a structurally valid body with no
user-role message. -/
theorem C6_wit :
    isChatRequest (RawBody.mk [some ⟨"assistant", "x"⟩] none) = true ∧
    rawHasUser [some ⟨"assistant", "x"⟩] = false ∧
    errNoUser ∈ (validateChatRequest (RawBody.mk [some ⟨"assistant", "x"⟩] none)).errors :=
  ⟨by decide, by decide, (C6_allRules _ _ (by decide)).2.1 (by decide)⟩

/-! ## Claim C8 -/

/-- Claim C8: for every `RAGContext` with `hasContext = true` and every
base prompt, the augmented prompt is the literal base prompt followed by
the knowledge-base block (whose summary reads
"Found {documentCount} relevant documents (avg. relevance: {averageScore
to 2 decimals})"), the full `contextText`, and an `INSTRUCTIONS` block of
exactly five fixed bullet lines. -/
theorem C8_augmented (rc : RAGContext) (base : String) (h : rc.hasContext = true) :
    (∃ rest, (buildEnhancedSystemPrompt base rc true).prompt = base ++ rest) ∧
    (buildEnhancedSystemPrompt base rc true).prompt =
      base ++ "\n\nKNOWLEDGE BASE CONTEXT:\nYou have access to relevant information from the knowledge base. " ++
        contextSummaryOf rc ++ ":\n\n" ++ rc.contextText ++ "\n\nINSTRUCTIONS:\n" ++ instructionsBlock ∧
    contextSummaryOf rc =
      "Found " ++ toString rc.documentCount ++ " relevant documents (avg. relevance: " ++
        toFixedQ 2 rc.averageScore ++ ")" ∧
    instructionBullets.length = 5 ∧
    ((strLines instructionsBlock).filter (fun l => strStartsWith l "- ")).length = 5 := by
  have hp : (buildEnhancedSystemPrompt base rc true).prompt =
      base ++ "\n\nKNOWLEDGE BASE CONTEXT:\nYou have access to relevant information from the knowledge base. " ++
        contextSummaryOf rc ++ ":\n\n" ++ rc.contextText ++ "\n\nINSTRUCTIONS:\n" ++ instructionsBlock := by
    simp [buildEnhancedSystemPrompt, h]
  refine ⟨⟨"\n\nKNOWLEDGE BASE CONTEXT:\nYou have access to relevant information from the knowledge base. " ++
      contextSummaryOf rc ++ ":\n\n" ++ rc.contextText ++ "\n\nINSTRUCTIONS:\n" ++ instructionsBlock, ?_⟩,
    hp, rfl, rfl, by decide⟩
  rw [hp]
  simp [String.append_assoc]

/-- Witness for C8 at a concrete context and base prompt. -/
theorem C8_wit :
    (⟨"CTX", 2, 3/5, [], true⟩ : RAGContext).hasContext = true ∧
    (∃ rest, (buildEnhancedSystemPrompt "BASE" ⟨"CTX", 2, 3/5, [], true⟩ true).prompt =
      "BASE" ++ rest) :=
  ⟨rfl, (C8_augmented ⟨"CTX", 2, 3/5, [], true⟩ "BASE" rfl).1⟩

/-! ## Claim C9 -/

/-- Claim C9 fails on the code: a validated request whose last (and only)
user message has empty content yields `userMessage = ""` even though a
user message exists — the claim's "empty only if no user message exists"
is violated (the `|| ""` default also fires on an empty content string). -/
theorem C9_cex :
    (validateChatRequest (RawBody.mk [some ⟨"user", ""⟩] none)).valid = true ∧
    ([(⟨"user", ""⟩ : ChatMessage)].any fun m => m.role == "user") = true ∧
    getUserMessage [⟨"user", ""⟩] = "" := by
  refine ⟨by decide, by decide, by decide⟩

/-- Claim C9 (amended): the query sent to the retrieval step is the
content of the LAST user-role message when one exists (not the first,
not a concatenation), and the empty string exactly when no user message
exists or the last user message's content is itself empty. -/
theorem C9_lastUser (msgs : List ChatMessage) :
    (∀ m : ChatMessage, (msgs.filter fun x => x.role == "user").getLast? = some m →
      getUserMessage msgs = m.content) ∧
    ((msgs.filter fun x => x.role == "user").getLast? = none → getUserMessage msgs = "") := by
  constructor
  · intro m hm
    by_cases hc : m.content = ""
    · simp [getUserMessage, hm, jsOr, hc]
    · simp [getUserMessage, hm, jsOr, hc]
  · intro hm
    simp [getUserMessage, hm, jsOr]

/-- Witness for C9 (amended): with two user messages the LAST one's
content is returned. -/
theorem C9_wit :
    (([⟨"user", "first"⟩, ⟨"assistant", "mid"⟩, ⟨"user", "last"⟩] : List ChatMessage).filter
        (fun x => x.role == "user")).getLast? = some ⟨"user", "last"⟩ ∧
    getUserMessage [⟨"user", "first"⟩, ⟨"assistant", "mid"⟩, ⟨"user", "last"⟩] = "last" :=
  ⟨by decide, (C9_lastUser _).1 ⟨"user", "last"⟩ (by decide)⟩

/-! ## Claim C10 -/

/-- Claim C10: the `ragSettings` merge pins `index` to the server-side
`autoragIndex`, so two client settings differing only in their `index`
field produce identical server-side settings, and the searched index
never depends on client input. -/
theorem C10_indexPinned (s1 s2 : ClientRagSettings)
    (h1 : s1.maxResults = s2.maxResults)
    (h2 : s1.scoreThreshold = s2.scoreThreshold)
    (h3 : s1.rewriteQuery = s2.rewriteQuery) :
    buildRagSettings (some s1) = buildRagSettings (some s2) ∧
    ∀ c : Option ClientRagSettings, (buildRagSettings c).index = autoragIndex := by
  constructor
  · simp [buildRagSettings, h1, h2, h3]
  · intro c
    cases c with
    | none => rfl
    | some s => rfl

/-- Witness for C10 at two settings differing only in `index`. -/
theorem C10_wit :
    (⟨none, none, none, some "client-index-a"⟩ : ClientRagSettings).maxResults =
      (⟨none, none, none, some "client-index-b"⟩ : ClientRagSettings).maxResults ∧
    buildRagSettings (some ⟨none, none, none, some "client-index-a"⟩) =
      buildRagSettings (some ⟨none, none, none, some "client-index-b"⟩) :=
  ⟨rfl, (C10_indexPinned _ _ rfl rfl rfl).1⟩

/-! ## Claim C3 -/

/-- Claim C3 fails on the code: a stream that yields zero text fragments
is indeed classified as failed with the no-response-content error, but
`handleChatError` matches that message against none of its retryable
substrings, so no retry is scheduled — the claim's "triggers one
automatic retry" is false even at attempt count 0. -/
theorem C3_cex :
    runConsumer [] = Except.error "No response content received" ∧
    (handleChatError "No response content received" 0).shouldRetry = false ∧
    (handleChatError "No response content received" 0).scheduledDelayMs = none := by
  refine ⟨rfl, rfl, rfl⟩

/-- Claim C3 (amended): a stream in which zero text fragments are
accumulated (even with HTTP status 200) is classified as failed with the
no-response-content error, but the retry controller classifies that error
as unknown and non-retryable: it renders the generic error message,
schedules no retry, and resets the attempt count to 0. -/
theorem C3_empty (lines : List Line) (attempts : Nat)
    (h : (lines.foldl processLine ("", false)).2 = false) :
    runConsumer lines = Except.error "No response content received" ∧
    (handleChatError "No response content received" attempts).errorMessage = unknownErrorMsg ∧
    (handleChatError "No response content received" attempts).shouldRetry = false ∧
    (handleChatError "No response content received" attempts).scheduledDelayMs = none ∧
    (handleChatError "No response content received" attempts).newRetryAttempts = 0 := by
  have hc : classifyError "No response content received" = (unknownErrorMsg, false) := rfl
  refine ⟨?_, ?_, ?_, ?_, ?_⟩
  · simp [runConsumer, h]
  · simp [handleChatError, hc]
  · simp [handleChatError, hc]
  · simp [handleChatError, hc]
  · simp [handleChatError, hc]

/-- Witness for C3 (amended) at a stream holding one SSE comment line. -/
theorem C3_wit :
    (([⟨": ping", none⟩] : List Line).foldl processLine ("", false)).2 = false ∧
    runConsumer [⟨": ping", none⟩] = Except.error "No response content received" :=
  ⟨by decide, (C3_empty [⟨": ping", none⟩] 1 (by decide)).1⟩

/-! ## Claim C4 -/

/-- Claim C4 identifies a code bug: after a retryable failure (here an
"HTTP 503" message) at attempt count 0, `handleChatError` does increment
the count and schedule `sendMessage` after `2000 * 1` ms — but
`sendMessage` reads the input box, which was cleared when the original
message was sent, and its entry guard returns without issuing any
request, so the exchange is never resubmitted. -/
theorem C4_bug :
    (handleChatError "HTTP 503: Service Unavailable" 0).shouldRetry = true ∧
    (handleChatError "HTTP 503: Service Unavailable" 0).newRetryAttempts = 1 ∧
    (handleChatError "HTTP 503: Service Unavailable" 0).scheduledDelayMs = some 2000 ∧
    sendMessageAttempt ⟨"", false, 1⟩ [⟨"user", "hello"⟩] = none := by
  refine ⟨by decide, by decide, by decide, by decide⟩

/-! ## Claim C7 -/

/-- Claim C7: whenever the primary generation call fails and the fallback
call succeeds, the response carries `X-Fallback-Used: true` and
`X-Original-Error` with the first failure's message, and the fallback
call's message list starts with a system message holding the original
base prompt (no RAG augmentation) followed by the request's messages with
client-supplied system messages removed. -/
theorem C7_fallbackHeaders (req : ChatRequestM) (rag : RAGContext)
    (llm : List ChatMessage → LLMResult) (rid procTime em : String)
    (hfail : generateLLMResponse (primaryMessages req rag) llm = Except.error em)
    (st : Nat) (stx bb : String)
    (hok : llm (fallbackMessages req) = LLMResult.raw st stx bb)
    (hst : 200 ≤ st ∧ st ≤ 299) :
    ("X-Fallback-Used", "true") ∈ (processPipeline req rag llm rid procTime).1.headers ∧
    ("X-Original-Error", em) ∈ (processPipeline req rag llm rid procTime).1.headers ∧
    (processPipeline req rag llm rid procTime).2 =
      [primaryMessages req rag, fallbackMessages req] ∧
    (fallbackMessages req).head? =
      some ⟨"system", jsOr (req.systemPrompt.getD "") defaultSystemPrompt⟩ ∧
    ∀ m ∈ (fallbackMessages req).tail, m.role ≠ "system" := by
  have hpipe : processPipeline req rag llm rid procTime =
      ({ status := st
         headers := [("X-Fallback-Used", "true"), ("X-Original-Error", em),
                     ("X-Request-ID", rid)] ++ corsHeaders
         body := bb }, [primaryMessages req rag, fallbackMessages req]) := by
    simp [processPipeline, hfail, handlePipelineFailure, hok, hst]
  refine ⟨?_, ?_, ?_, rfl, ?_⟩
  · rw [hpipe]; simp
  · rw [hpipe]; simp
  · rw [hpipe]
  · intro m hm
    have hmem : m ∈ req.messages.filter (fun x => x.role != "system") := by
      simpa [fallbackMessages] using hm
    have := (List.mem_filter.mp hmem).2
    simpa using this

/-- A request, context and oracle exhibiting a primary failure followed
by a fallback success (used only by the C7 witness). -/
def reqW : ChatRequestM := ⟨[⟨"user", "hi"⟩], some "BP"⟩

def ragW : RAGContext := ⟨"CTX", 1, 1/2, [], true⟩

def llmW : List ChatMessage → LLMResult := fun msgs =>
  if msgs = [⟨"system", "BP"⟩, ⟨"user", "hi"⟩] then LLMResult.raw 200 "OK" "stream"
  else LLMResult.throws "primary down"

/-- Witness for C7: the concrete oracle fails on the augmented messages
and succeeds on the fallback messages, and the resulting response carries
the fallback header. -/
theorem C7_wit :
    generateLLMResponse (primaryMessages reqW ragW) llmW = Except.error "primary down" ∧
    llmW (fallbackMessages reqW) = LLMResult.raw 200 "OK" "stream" ∧
    ("X-Fallback-Used", "true") ∈ (processPipeline reqW ragW llmW "rid" "1ms").1.headers :=
  ⟨rfl, rfl,
    (C7_fallbackHeaders reqW ragW llmW "rid" "1ms" "primary down" rfl 200 "OK" "stream" rfl
      (by decide)).1⟩

end DamageScan
